import Mathlib

/-!
Shallow embedding of `src/CitiesIterator.py` (class `CitiesIterator` and the
`City` dataclass).  Python runtime values appearing in raw records are
modelled by `PyVal`; Python exceptions by `PyErr`; fallible operations return
`Except PyErr`.  Floats are modelled as rationals; `float(...)` string parsing
is modelled by a decimal parser covering sign, integer and fractional digits.
-/

/-- Model of the Python runtime values that can appear in a decoded JSON
record: integers, floats (as rationals), strings, dicts (association lists in
insertion order), lists, and `None`. -/
inductive PyVal where
  | pyInt (n : ℤ)
  | pyFloat (q : ℚ)
  | pyStr (s : String)
  | pyDict (fields : List (String × PyVal))
  | pyList (elems : List PyVal)
  | pyNone

/-- Model of the Python exceptions that the translated code can raise.
`valueError` covers both the validation errors and the sort-configuration
error (the Python code raises `ValueError` at both sites, distinguished by
message). -/
inductive PyErr where
  | valueError (msg : String)
  | typeError
  | keyError (k : String)
  | indexError
  | attributeError
deriving DecidableEq

/-- A raw record: one element of `cities_data`, a Python dict modelled as an
association list from key to value. -/
def RawRecord := List (String × PyVal)

mutual

/-- Rendering of a `PyVal` used in error messages, standing in for Python
`repr` inside f-strings (brackets are used instead of Python brace syntax). -/
def pyReprVal : PyVal → String
  | .pyInt n => toString n
  | .pyFloat q => "float " ++ toString q.num ++ " / " ++ toString q.den
  | .pyStr s => "str " ++ s
  | .pyDict fields => "dict [" ++ pyReprFields fields ++ "]"
  | .pyList elems => "list [" ++ pyReprElems elems ++ "]"
  | .pyNone => "None"

/-- Rendering of dict fields for `pyReprVal`. -/
def pyReprFields : List (String × PyVal) → String
  | [] => ""
  | (k, v) :: rest => k ++ ": " ++ pyReprVal v ++ ", " ++ pyReprFields rest

/-- Rendering of list elements for `pyReprVal`. -/
def pyReprElems : List PyVal → String
  | [] => ""
  | v :: rest => pyReprVal v ++ ", " ++ pyReprElems rest

end

/-- Rendering of a raw record for error messages. -/
def reprRecord (r : RawRecord) : String := "dict [" ++ pyReprFields r ++ "]"

/-- The `City` dataclass.  `lat` and `lon` hold the result of `float(...)`
conversion; the remaining fields are stored exactly as found in the record
(the Python constructor performs no conversion or check on them). -/
structure City where
  name : PyVal
  lat : ℚ
  lon : ℚ
  district : PyVal
  population : PyVal
  subject : PyVal

/-- The required top-level keys checked by `_validate_data`. -/
def requiredFields : List String := ["name", "district", "population", "subject", "coords"]

/-- The required keys of the nested `coords` mapping. -/
def coordsFields : List String := ["lat", "lon"]

/-- Message of the `ValueError` raised by `_validate_data` for a record with
missing top-level fields (the Python message interpolates the record). -/
def topErrMsg (r : RawRecord) : String :=
  "Missing required fields in data: " ++ reprRecord r

/-- Message of the `ValueError` raised by `_validate_data` for a record whose
`coords` mapping is missing `lat` or `lon`. -/
def coordsErrMsg (r : RawRecord) : String :=
  "Missing required fields in coords: " ++ reprRecord r

/-- One step of `_validate_data`: check one record.  The top-level key-subset
check runs first; then `city_data["coords"].keys()` is consulted, which on a
non-dict value raises `AttributeError` (no `.keys()` attribute). -/
def validateRecord (r : RawRecord) : Except PyErr Unit :=
  if requiredFields.all fun k => (List.lookup k r).isSome then
    match List.lookup "coords" r with
    | some (.pyDict c) =>
      if coordsFields.all fun k => (List.lookup k c).isSome then .ok ()
      else .error (.valueError (coordsErrMsg r))
    | some _ => .error .attributeError
    | none => .error (.keyError "coords")
  else .error (.valueError (topErrMsg r))

/-- The `for` loop of `_validate_data`: validate every record in order,
stopping at the first failure, before any `City` is constructed. -/
def validateData : List RawRecord → Except PyErr Unit
  | [] => .ok ()
  | r :: rest =>
    match validateRecord r with
    | .ok _ => validateData rest
    | .error e => .error e

/-- Python dict subscription `v[k]`: `KeyError` on a missing key and
`TypeError` when the value is not a dict (not subscriptable by a string). -/
def getItem (v : PyVal) (k : String) : Except PyErr PyVal :=
  match v with
  | .pyDict fields =>
    match List.lookup k fields with
    | some x => .ok x
    | none => .error (.keyError k)
  | _ => .error .typeError

/-- Subscription `city_data[k]` on a raw record. -/
def getKey (r : RawRecord) (k : String) : Except PyErr PyVal :=
  match List.lookup k r with
  | some x => .ok x
  | none => .error (.keyError k)

/-- Value of a run of decimal digit characters, `none` if any character is
not a digit.  The empty run is `some 0` (callers rule out the all-empty
case). -/
def digitRun (cs : List Char) : Option ℕ :=
  if cs.all Char.isDigit then
    some (cs.foldl (fun a c => a * 10 + (c.toNat - 48)) 0)
  else none

/-- Model of Python `float(s)` string parsing: optional sign, then decimal
digits with an optional fractional part (`"12"`, `"12.5"`, `"12."`, `".5"`).
Strings outside this shape fail, modelling the `ValueError` raised by
`float`. -/
def parseFloat (s : String) : Option ℚ :=
  let cs := s.toList
  let signAndRest : ℚ × List Char :=
    match cs with
    | '-' :: rest => (-1, rest)
    | '+' :: rest => (1, rest)
    | _ => (1, cs)
  match (signAndRest.2).splitOn '.' with
  | [ip] =>
    match digitRun ip with
    | some n => if ip.isEmpty then none else some (signAndRest.1 * n)
    | none => none
  | [ip, fp] =>
    if ip.isEmpty ∧ fp.isEmpty then none
    else
      match digitRun ip, digitRun fp with
      | some n, some f =>
        some (signAndRest.1 * ((n : ℚ) + (f : ℚ) / ((10 : ℚ) ^ fp.length)))
      | _, _ => none
  | _ => none

/-- Model of the Python builtin `float(v)`: numbers convert, strings are
parsed (failure is a `ValueError` naming the bad value), and any other type
raises `TypeError` (which `_create_city` does not catch). -/
def floatOf (v : PyVal) : Except PyErr ℚ :=
  match v with
  | .pyInt n => .ok (n : ℚ)
  | .pyFloat q => .ok q
  | .pyStr s =>
    match parseFloat s with
    | some q => .ok q
    | none => .error (.valueError ("could not convert string to float: " ++ s))
  | _ => .error .typeError

/-- The body of the `try` block of `_create_city`: evaluate the `City(...)`
arguments in Python order (`name`, `lat`, `lon`, `district`, `population`,
`subject`), propagating the first exception. -/
def createCityRaw (r : RawRecord) : Except PyErr City := do
  let nameVal ← getKey r "name"
  let coordsForLat ← getKey r "coords"
  let latVal ← getItem coordsForLat "lat"
  let latQ ← floatOf latVal
  let coordsForLon ← getKey r "coords"
  let lonVal ← getItem coordsForLon "lon"
  let lonQ ← floatOf lonVal
  let districtVal ← getKey r "district"
  let populationVal ← getKey r "population"
  let subjectVal ← getKey r "subject"
  pure { name := nameVal, lat := latQ, lon := lonQ, district := districtVal,
         population := populationVal, subject := subjectVal }

/-- `_create_city`: the `try/except` wrapper re-raises `KeyError` and
`ValueError` as `ValueError` with a wrapped message; other exceptions
(notably `TypeError` from `float`) propagate unchanged. -/
def createCity (r : RawRecord) : Except PyErr City :=
  match createCityRaw r with
  | .ok c => .ok c
  | .error (.keyError k) => .error (.valueError ("Error creating city: missing key " ++ k))
  | .error (.valueError m) => .error (.valueError ("Error converting data: " ++ m))
  | .error e => .error e

/-- The list comprehension `[self._create_city(d) for d in cities_data]`:
build cities in input order, propagating the first exception. -/
def createCities : List RawRecord → Except PyErr (List City)
  | [] => .ok []
  | r :: rest =>
    match createCity r with
    | .error e => .error e
    | .ok c =>
      match createCities rest with
      | .error e => .error e
      | .ok cs => .ok (c :: cs)

/-- The attribute names of the `City` dataclass, used to model
`hasattr(city, parameter)` and `getattr(city, parameter)` over the entity
shape (its data fields). -/
def cityFields : List String := ["name", "lat", "lon", "district", "population", "subject"]

/-- Model of `getattr(city, parameter)` for the dataclass fields; `lat` and
`lon` are floats in the dataclass, so they surface as `pyFloat`.  Names
outside `cityFields` are guarded by the `hasattr` check before any use. -/
def City.getattrVal (c : City) : String → PyVal
  | "name" => c.name
  | "lat" => .pyFloat c.lat
  | "lon" => .pyFloat c.lon
  | "district" => c.district
  | "population" => c.population
  | "subject" => c.subject
  | _ => .pyNone

/-- Lexicographic comparison of character lists by code point, modelling
Python string comparison (`str < str` compares code points left to right). -/
def lexLe : List Char → List Char → Bool
  | [], _ => true
  | _ :: _, [] => false
  | a :: as, b :: bs =>
    if a.toNat < b.toNat then true
    else if b.toNat < a.toNat then false
    else lexLe as bs

/-- Whether a `PyVal` is numeric (Python `int` or `float`), i.e. orderable
against numbers. -/
def isNumVal : PyVal → Bool
  | .pyInt _ => true
  | .pyFloat _ => true
  | _ => false

/-- Numeric value of a numeric `PyVal` (Python compares `int` and `float` by
their mathematical value); defaults to `0` on non-numbers, which every use
rules out. -/
def numVal : PyVal → ℚ
  | .pyInt n => (n : ℚ)
  | .pyFloat q => q
  | _ => 0

/-- Whether a `PyVal` is a Python `str`. -/
def isStrVal : PyVal → Bool
  | .pyStr _ => true
  | _ => false

/-- String content of a `pyStr`; defaults to `""` on non-strings, which every
use rules out. -/
def strVal : PyVal → String
  | .pyStr s => s
  | _ => ""

/-- Sort comparator on cities for a numeric sort key: compare
`getattr(city, p)` values numerically. -/
def numKeyLe (p : String) (a b : City) : Bool :=
  decide (numVal (a.getattrVal p) ≤ numVal (b.getattrVal p))

/-- Sort comparator on cities for a string sort key: compare
`getattr(city, p)` values lexicographically by code point. -/
def strKeyLe (p : String) (a b : City) : Bool :=
  lexLe (strVal (a.getattrVal p)).toList (strVal (b.getattrVal p)).toList

/-- Message of the `ValueError` raised by `sort_by` for an unknown field. -/
def sortErrMessage (p : String) : String :=
  "Cannot sort by nonexistent parameter: " ++ p

/-- The `sort_by` method.  `self.cities[0]` is evaluated first, so an empty
city list raises `IndexError` before anything else; then
`hasattr(self.cities[0], parameter)` is checked against the entity shape;
then `list.sort(key=..., reverse=...)` runs: a stable sort of the current
list, with `reverse=True` reversing the comparison but keeping equal keys in
original order.  Python raises `TypeError` when the sort compares keys of
unorderable types; with two or more cities this happens exactly when the key
values are not all numeric and not all strings (a single city is sorted
without any comparison). -/
def sortCities (cities : List City) (p : String) (rev : Bool) : Except PyErr (List City) :=
  match cities with
  | [] => .error .indexError
  | c :: rest =>
    if cityFields.contains p then
      if rest.isEmpty then .ok (c :: rest)
      else if (c :: rest).all fun x => isNumVal (x.getattrVal p) then
        .ok ((c :: rest).mergeSort fun a b =>
          if rev then numKeyLe p b a else numKeyLe p a b)
      else if (c :: rest).all fun x => isStrVal (x.getattrVal p) then
        .ok ((c :: rest).mergeSort fun a b =>
          if rev then strKeyLe p b a else strKeyLe p a b)
      else .error .typeError
    else .error (.valueError (sortErrMessage p))

/-- The iterator state of a constructed `CitiesIterator`: the materialized
(optionally sorted) city list, the mutable population floor, and the cursor
index used by `__next__`. -/
structure IterState where
  cities : List City
  min_population : ℤ
  index : ℕ

/-- The `CitiesIterator.__init__` constructor: validate every raw record,
build the `City` list in input order, sort it once if a sort field was
requested, and initialize the population floor to `0` (the cursor starts at
the beginning). -/
def initIterator (cities_data : List RawRecord) (sortField : Option String)
    (rev : Bool) : Except PyErr IterState :=
  match validateData cities_data with
  | .error e => .error e
  | .ok _ =>
    match createCities cities_data with
    | .error e => .error e
    | .ok cities =>
      match sortField with
      | none => .ok { cities := cities, min_population := 0, index := 0 }
      | some p =>
        match sortCities cities p rev with
        | .error e => .error e
        | .ok sorted => .ok { cities := sorted, min_population := 0, index := 0 }

/-- The `set_population_filter` method: replace the floor, touching nothing
else. -/
def setPopulationFilter (st : IterState) (m : ℤ) : IterState :=
  { st with min_population := m }

/-- The `__iter__` method: reset the cursor to the start and return the same
iterator otherwise unchanged. -/
def iterStart (st : IterState) : IterState :=
  { st with index := 0 }

/-- The comparison `city.population >= self.min_population` performed by
`__next__`: numeric populations compare by value, anything else raises
`TypeError` (unorderable types). -/
def popGe (v : PyVal) (m : ℤ) : Except PyErr Bool :=
  match v with
  | .pyInt n => .ok (decide ((m : ℤ) ≤ n))
  | .pyFloat q => .ok (decide ((m : ℚ) ≤ q))
  | _ => .error .typeError

/-- Total version of `popGe` for stating results: `true` exactly when the
population is numeric and at least the floor. -/
def popGeB (v : PyVal) (m : ℤ) : Bool :=
  match v with
  | .pyInt n => decide ((m : ℤ) ≤ n)
  | .pyFloat q => decide ((m : ℚ) ≤ q)
  | _ => false

/-- The `while` loop of `__next__`, walking the suffix `cities[index:]` and
carrying the running index: return the first city whose population passes the
current floor together with the cursor position just past it, `none` at
exhaustion (`StopIteration`). -/
def nextFrom (m : ℤ) : List City → ℕ → Except PyErr (Option (City × ℕ))
  | [], _ => .ok none
  | c :: rest, i =>
    match popGe c.population m with
    | .error e => .error e
    | .ok true => .ok (some (c, i + 1))
    | .ok false => nextFrom m rest (i + 1)

/-- One `__next__` call on the iterator state: `some city` with the advanced
cursor, or `none` (`StopIteration`) with the cursor at the end. -/
def nextCity (st : IterState) : Except PyErr (Option City × IterState) :=
  match nextFrom st.min_population (st.cities.drop st.index) st.index with
  | .error e => .error e
  | .ok (some (c, j)) => .ok (some c, { st with index := j })
  | .ok none => .ok (none, { st with index := max st.index st.cities.length })

/-- Repeated `__next__` calls run to exhaustion over the suffix
`cities[index:]`: collect every city whose population passes the floor, in
order, propagating the first exception. -/
def collectFrom (m : ℤ) : List City → Except PyErr (List City)
  | [] => .ok []
  | c :: rest =>
    match popGe c.population m with
    | .error e => .error e
    | .ok true =>
      match collectFrom m rest with
      | .error e => .error e
      | .ok tail => .ok (c :: tail)
    | .ok false => collectFrom m rest

/-- Traversal of the iterator from its current cursor position (repeated
`__next__` until `StopIteration`). -/
def traverseState (st : IterState) : Except PyErr (List City) :=
  collectFrom st.min_population (st.cities.drop st.index)

/-- A full `for city in iterator` traversal: `__iter__` (cursor reset)
followed by `__next__` until `StopIteration`. -/
def fullTraversal (st : IterState) : Except PyErr (List City) :=
  traverseState (iterStart st)

/-- Validity of one raw record in the sense of the spec input boundary: all
required keys present, `coords` a mapping with `lat` and `lon`, and both
coordinates coercible to float. -/
def recordOK (r : RawRecord) : Bool :=
  (List.lookup "name" r).isSome &&
  (List.lookup "district" r).isSome &&
  (List.lookup "population" r).isSome &&
  (List.lookup "subject" r).isSome &&
  (match List.lookup "coords" r with
   | some (.pyDict c) =>
     (match List.lookup "lat" c with
      | some latv => (floatOf latv).isOk
      | none => false) &&
     (match List.lookup "lon" c with
      | some lonv => (floatOf lonv).isOk
      | none => false)
   | _ => false)

/-- The `City` a valid record builds: field values read off the record, with
`lat` and `lon` coerced to float. -/
def cityOfValid (r : RawRecord) : City :=
  let coordsVal := (List.lookup "coords" r).getD .pyNone
  let latv := match coordsVal with
    | .pyDict c => (List.lookup "lat" c).getD .pyNone
    | _ => .pyNone
  let lonv := match coordsVal with
    | .pyDict c => (List.lookup "lon" c).getD .pyNone
    | _ => .pyNone
  { name := (List.lookup "name" r).getD .pyNone
    lat := (floatOf latv).toOption.getD 0
    lon := (floatOf lonv).toOption.getD 0
    district := (List.lookup "district" r).getD .pyNone
    population := (List.lookup "population" r).getD .pyNone
    subject := (List.lookup "subject" r).getD .pyNone }

/-- Record invalidity in the sense of claim C2, first kind: a missing
top-level required key. -/
def missingTopB (r : RawRecord) : Bool :=
  !(requiredFields.all fun k => (List.lookup k r).isSome)

/-- Record invalidity in the sense of claim C2, second kind: `coords` is a
mapping but is missing `lat` or `lon`. -/
def coordsDictMissingB (r : RawRecord) : Bool :=
  match List.lookup "coords" r with
  | some (.pyDict c) => !(coordsFields.all fun k => (List.lookup k c).isSome)
  | _ => false

/-- Equality of sort-key values as Python compares them: numeric keys by
value (`1 == 1.0` in Python), string keys by content. -/
def sortKeyEq (p : String) (a b : City) : Bool :=
  let x := a.getattrVal p
  let y := b.getattrVal p
  if isNumVal x && isNumVal y then decide (numVal x = numVal y)
  else if isStrVal x && isStrVal y then strVal x == strVal y
  else false

/-- Sample city with population `500`. -/
def cityA : City :=
  { name := .pyStr "A", lat := 1, lon := 2, district := .pyStr "D",
    population := .pyInt 500, subject := .pyStr "S" }

/-- Sample city with population `1500`. -/
def cityB : City :=
  { name := .pyStr "B", lat := 3, lon := 4, district := .pyStr "D",
    population := .pyInt 1500, subject := .pyStr "S" }

/-- Sample city with population `800`. -/
def cityC : City :=
  { name := .pyStr "C", lat := 5, lon := 6, district := .pyStr "D",
    population := .pyInt 800, subject := .pyStr "S" }

/-- Sample raw record with every required field and string coordinates. -/
def goodRec : RawRecord :=
  [("name", .pyStr "A"), ("district", .pyStr "D"), ("population", .pyInt 500),
   ("subject", .pyStr "S"),
   ("coords", .pyDict [("lat", .pyStr "1.0"), ("lon", .pyStr "2.0")])]

/-- Sample raw record missing the required `population` key. -/
def badRec : RawRecord :=
  [("name", .pyStr "B"), ("district", .pyStr "D"), ("subject", .pyStr "S"),
   ("coords", .pyDict [("lat", .pyStr "1.0"), ("lon", .pyStr "2.0")])]

/-- Sample raw record that passes key validation but whose `lat` value is
`None`: `float(None)` raises `TypeError`, which `_create_city` does not
catch. -/
def badLatNoneRec : RawRecord :=
  [("name", .pyStr "A"), ("district", .pyStr "D"), ("population", .pyInt 500),
   ("subject", .pyStr "S"),
   ("coords", .pyDict [("lat", .pyNone), ("lon", .pyStr "2.0")])]

/-- Sample city with population `500` equal to `cityA`, for stability. -/
def cityE : City :=
  { name := .pyStr "E", lat := 7, lon := 8, district := .pyStr "D",
    population := .pyInt 500, subject := .pyStr "S" }

/-- Whether a character is ASCII yet can never occur in a string accepted by
Python `float`: float literals use only digits, signs, a dot, underscores,
`e`/`E`, whitespace, and the letters of `infinity`/`nan` (either case), so a
string containing any other ASCII character is rejected by `float` with
`ValueError`.  (Non-ASCII characters are excluded here because `float` also
accepts non-ASCII decimal digits.) -/
def isBadFloatChar (c : Char) : Bool :=
  decide (c.toNat < 128) && !c.isDigit && !(c ∈ ['+', '-', '.', '_', 'e', 'E']) &&
  !c.isWhitespace && !(c.toLower ∈ ['i', 'n', 'f', 't', 'y', 'a'])

/-- Whether a string is certainly uncoercible by Python `float`: it contains
an ASCII character that cannot occur in any float literal.  The model's
`parseFloat` covers only a subset of the `float` grammar, so this predicate
guards statements about coercion failure to strings on which the real
`float` fails as well. -/
def badFloatString (s : String) : Bool := s.toList.any isBadFloatChar

/-- Whether a value is of non-string, non-numeric type — exactly the values
on which `float(...)` raises `TypeError`. -/
def nonNumStrVal : PyVal → Bool
  | .pyDict _ => true
  | .pyList _ => true
  | .pyNone => true
  | _ => false

/-- Sample record with an unparseable string at `lat`. -/
def recBadLatStr : RawRecord :=
  [("name", .pyStr "A"), ("district", .pyStr "D"), ("population", .pyInt 500),
   ("subject", .pyStr "S"),
   ("coords", .pyDict [("lat", .pyStr "abc"), ("lon", .pyStr "2.0")])]

/-- Sample record with a coercible (integer) `lat` and an unparseable string
at `lon`. -/
def recBadLonStr : RawRecord :=
  [("name", .pyStr "A"), ("district", .pyStr "D"), ("population", .pyInt 500),
   ("subject", .pyStr "S"),
   ("coords", .pyDict [("lat", .pyInt 1), ("lon", .pyStr "xyz")])]

/-- Sample record with a list value at `lat`. -/
def recLatList : RawRecord :=
  [("name", .pyStr "A"), ("district", .pyStr "D"), ("population", .pyInt 500),
   ("subject", .pyStr "S"),
   ("coords", .pyDict [("lat", .pyList []), ("lon", .pyStr "2.0")])]

/-- Sample record with a coercible (integer) `lat` and `None` at `lon`. -/
def recLonNone : RawRecord :=
  [("name", .pyStr "A"), ("district", .pyStr "D"), ("population", .pyInt 500),
   ("subject", .pyStr "S"),
   ("coords", .pyDict [("lat", .pyInt 1), ("lon", .pyNone)])]

theorem popGe_eq_of_num (v : PyVal) (m : ℤ) (h : isNumVal v = true) :
    popGe v m = .ok (popGeB v m) := by
  cases v <;> simp_all [isNumVal, popGe, popGeB]

theorem collectFrom_eq_filter (m : ℤ) (l : List City)
    (h : ∀ c ∈ l, isNumVal c.population = true) :
    collectFrom m l = .ok (l.filter fun c => popGeB c.population m) := by
  induction l with
  | nil => simp [collectFrom]
  | cons c rest ih =>
    have hc : isNumVal c.population = true := h c (by simp)
    have hrest := ih fun x hx => h x (by simp [hx])
    by_cases hb : popGeB c.population m = true <;>
      simp [collectFrom, popGe_eq_of_num c.population m hc, hb, hrest, List.filter_cons]

theorem lexLe_refl (a : List Char) : lexLe a a = true := by
  induction a with
  | nil => rfl
  | cons x xs ih => simp [lexLe, ih]

theorem lexLe_total (a b : List Char) : lexLe a b || lexLe b a := by
  induction a generalizing b with
  | nil => simp [lexLe]
  | cons x xs ih =>
    cases b with
    | nil => simp [lexLe]
    | cons y ys =>
      simp only [lexLe]
      rcases Nat.lt_trichotomy x.toNat y.toNat with h | h | h
      · simp [h, Nat.not_lt.mpr (Nat.le_of_lt h)]
      · simp [h, ih ys]
      · simp [h, Nat.not_lt.mpr (Nat.le_of_lt h)]

theorem lexLe_trans (a b c : List Char) (h1 : lexLe a b) (h2 : lexLe b c) :
    lexLe a c = true := by
  induction a generalizing b c with
  | nil => simp [lexLe]
  | cons x xs ih =>
    cases b with
    | nil => simp [lexLe] at h1
    | cons y ys =>
      cases c with
      | nil => simp [lexLe] at h2
      | cons z zs =>
        simp only [lexLe] at h1 h2 ⊢
        by_cases hxy : x.toNat < y.toNat <;> by_cases hyx : y.toNat < x.toNat <;>
          by_cases hyz : y.toNat < z.toNat <;> by_cases hzy : z.toNat < y.toNat <;>
            simp [hxy, hyx, hyz, hzy] at h1 h2 ⊢ <;>
              first
                | omega
                | (have hxz : x.toNat < z.toNat := by omega
                   simp [hxz])
                | (have hxz : x.toNat = z.toNat := by omega
                   simp [hxz.le.not_lt, hxz.ge.not_lt]
                   exact ⟨hxz.le, ih ys zs h1 h2⟩)

theorem validateRecord_ok_of_recordOK (r : RawRecord) (h : recordOK r = true) :
    validateRecord r = .ok () := by
  unfold recordOK at h
  simp only [Bool.and_eq_true] at h
  obtain ⟨⟨⟨⟨hname, hdistrict⟩, hpop⟩, hsubj⟩, hcoords⟩ := h
  split at hcoords
  case _ cfields hv =>
    simp only [Bool.and_eq_true] at hcoords
    obtain ⟨hlat, hlon⟩ := hcoords
    split at hlat
    case _ latv hlatv =>
      split at hlon
      case _ lonv hlonv =>
        simp [validateRecord, requiredFields, coordsFields, hv, hname, hdistrict,
              hpop, hsubj, hlatv, hlonv]
      case _ => simp at hlon
    case _ => simp at hlat
  case _ => simp at hcoords

theorem createCity_ok_of_recordOK (r : RawRecord) (h : recordOK r = true) :
    createCity r = .ok (cityOfValid r) := by
  unfold recordOK at h
  simp only [Bool.and_eq_true] at h
  obtain ⟨⟨⟨⟨hname, hdistrict⟩, hpop⟩, hsubj⟩, hcoords⟩ := h
  obtain ⟨nv, hnv⟩ := Option.isSome_iff_exists.mp hname
  obtain ⟨dv, hdv⟩ := Option.isSome_iff_exists.mp hdistrict
  obtain ⟨pv, hpv⟩ := Option.isSome_iff_exists.mp hpop
  obtain ⟨sv, hsv⟩ := Option.isSome_iff_exists.mp hsubj
  split at hcoords
  case _ cfields hv =>
    simp only [Bool.and_eq_true] at hcoords
    obtain ⟨hlat, hlon⟩ := hcoords
    split at hlat
    case _ latv hlatv =>
      split at hlon
      case _ lonv hlonv =>
        rcases hlq : floatOf latv with e | lq
        · rw [hlq] at hlat; simp [Except.isOk, Except.toBool] at hlat
        rcases hoq : floatOf lonv with e | oq
        · rw [hoq] at hlon; simp [Except.isOk, Except.toBool] at hlon
        simp [createCity, createCityRaw, getKey, getItem, cityOfValid, hv, hnv, hdv,
              hpv, hsv, hlatv, hlonv, hlq, hoq, bind, Except.bind, pure, Except.pure,
              Except.toOption]
      case _ => simp at hlon
    case _ => simp at hlat
  case _ => simp at hcoords

theorem validateData_ok_of_all (l : List RawRecord)
    (h : ∀ r ∈ l, recordOK r = true) : validateData l = .ok () := by
  induction l with
  | nil => rfl
  | cons r rest ih =>
    have hr := validateRecord_ok_of_recordOK r (h r (by simp))
    simp [validateData, hr, ih fun x hx => h x (by simp [hx])]

theorem createCities_eq_map (l : List RawRecord)
    (h : ∀ r ∈ l, recordOK r = true) :
    createCities l = .ok (l.map cityOfValid) := by
  induction l with
  | nil => rfl
  | cons r rest ih =>
    have hr := createCity_ok_of_recordOK r (h r (by simp))
    simp [createCities, hr, ih fun x hx => h x (by simp [hx])]

theorem validateData_error_at (pre post : List RawRecord) (r : RawRecord)
    (e : PyErr) (hpre : ∀ r' ∈ pre, validateRecord r' = .ok ())
    (herr : validateRecord r = .error e) :
    validateData (pre ++ r :: post) = .error e := by
  induction pre with
  | nil => simp [validateData, herr]
  | cons q rest ih =>
    have hq := hpre q (by simp)
    simp [validateData, hq, ih fun x hx => hpre x (by simp [hx])]

theorem validateRecord_error_of_bad (r : RawRecord)
    (hbad : (missingTopB r || coordsDictMissingB r) = true) :
    validateRecord r =
      .error (.valueError (if missingTopB r then topErrMsg r else coordsErrMsg r)) := by
  by_cases htop : missingTopB r = true
  · have hAll : (requiredFields.all fun k => (List.lookup k r).isSome) = false := by
      have h' := htop
      unfold missingTopB at h'
      simpa using h'
    simp [validateRecord, hAll, htop]
  · simp only [Bool.or_eq_true] at hbad
    rcases hbad with hbad | hbad
    · exact absurd hbad htop
    have htop' : (requiredFields.all fun k => (List.lookup k r).isSome) = true := by
      have h' := htop
      unfold missingTopB at h'
      simpa using h'
    unfold coordsDictMissingB at hbad
    split at hbad
    case _ cfields hv =>
      have hfail : (coordsFields.all fun k => (List.lookup k cfields).isSome) = false := by
        simpa using hbad
      simp [validateRecord, htop', hv, hfail, htop]
    case _ => simp at hbad

theorem validateData_ok_of_records (l : List RawRecord)
    (h : ∀ r ∈ l, validateRecord r = .ok ()) : validateData l = .ok () := by
  induction l with
  | nil => rfl
  | cons r rest ih =>
    simp [validateData, h r (by simp), ih fun x hx => h x (by simp [hx])]

theorem createCities_error_at (pre post : List RawRecord) (r : RawRecord)
    (e : PyErr) (hpre : ∀ r' ∈ pre, createCity r' = .ok (cityOfValid r'))
    (herr : createCity r = .error e) :
    createCities (pre ++ r :: post) = .error e := by
  induction pre with
  | nil => simp [createCities, herr]
  | cons q rest ih =>
    simp [createCities, hpre q (by simp), ih fun x hx => hpre x (by simp [hx])]

/-- C9: starting a fresh traversal (`__iter__`) resets the cursor to the
start and leaves everything else unchanged: the city sequence (hence its
sort order) and the population floor are exactly those of the previous
state; nothing is recomputed. -/
theorem iter_resets_cursor_only (st : IterState) :
    iterStart st =
      { cities := st.cities, min_population := st.min_population, index := 0 } := rfl

/-- C10: constructing from the empty raw-record batch with any requested
sort field (valid or not) is not a no-op: `sort_by` evaluates
`self.cities[0]` on the empty city list, reaching the out-of-bounds index
access (`IndexError`) before the `hasattr` check could raise the
configuration error.  The quantification over every `p` covers in particular
every nonexistent field name. -/
theorem empty_batch_sort_request_index_error (p : String) (rev : Bool) :
    initIterator [] (some p) rev = .error .indexError := rfl

/-- C1: for every iterator state and floor `p`, `set_population_filter(p)`
followed by a full traversal from the start (`__iter__` then `__next__` to
exhaustion) yields exactly the stored cities whose population is at least
`p`, in stored order, omitting all others (`List.filter` keeps exactly the
qualifying elements in order).  Populations must be numeric, as every
batch-built city has (otherwise Python's `>=` raises `TypeError`). -/
theorem population_filter_then_full_traversal (st : IterState) (p : ℤ)
    (h : ∀ c ∈ st.cities, isNumVal c.population = true) :
    fullTraversal (setPopulationFilter st p) =
      .ok (st.cities.filter fun c => popGeB c.population p) := by
  unfold fullTraversal traverseState iterStart setPopulationFilter
  simp only [List.drop_zero]
  exact collectFrom_eq_filter p st.cities h

theorem population_filter_then_full_traversal_witness :
    fullTraversal (setPopulationFilter ⟨[cityA, cityB], 0, 0⟩ 1000) = .ok [cityB] := by
  rw [population_filter_then_full_traversal ⟨[cityA, cityB], 0, 0⟩ 1000 (by decide)]
  rfl

/-- C6: setting the population floor while an iteration is in progress (the
cursor strictly inside the sequence) takes effect on all subsequent
`__next__` calls of that same iteration: the remaining traversal returns
exactly the remaining cities that pass the floor value current at each call
(the new `p`), not the floor at iteration start. -/
theorem floor_update_affects_inflight_iteration (st : IterState) (p : ℤ)
    (h : ∀ c ∈ st.cities, isNumVal c.population = true) :
    traverseState (setPopulationFilter st p) =
      .ok ((st.cities.drop st.index).filter fun c => popGeB c.population p) := by
  unfold traverseState setPopulationFilter
  exact collectFrom_eq_filter p _ fun c hc => h c (List.drop_subset st.index st.cities hc)

theorem floor_update_affects_inflight_iteration_witness :
    traverseState (setPopulationFilter ⟨[cityB, cityA, cityC], 0, 1⟩ 600) =
      .ok [cityC] := by
  rw [floor_update_affects_inflight_iteration ⟨[cityB, cityA, cityC], 0, 1⟩ 600 (by decide)]
  rfl

/-- C2: a batch containing a record that is missing a required top-level key,
or whose `coords` mapping is missing `lat` or `lon`, makes construction fail
with the validation `ValueError` whose message interpolates the offending
record — the first invalid one (every record before it validates).  The
validation pass runs before `_create_city` is ever called, so no `City` is
produced and nothing is partially processed. -/
theorem invalid_record_fails_validation (pre post : List RawRecord)
    (r : RawRecord) (sf : Option String) (rev : Bool)
    (hpre : ∀ r' ∈ pre, validateRecord r' = .ok ())
    (hbad : (missingTopB r || coordsDictMissingB r) = true) :
    initIterator (pre ++ r :: post) sf rev =
      .error (.valueError (if missingTopB r then topErrMsg r else coordsErrMsg r)) := by
  have hv := validateData_error_at pre post r _ hpre (validateRecord_error_of_bad r hbad)
  simp [initIterator, hv]

theorem invalid_record_fails_validation_witness :
    initIterator [goodRec, badRec] none false =
      .error (.valueError (topErrMsg badRec)) := by
  have h := invalid_record_fails_validation [goodRec] [] badRec none false
    (by intro r' hr'; rw [List.mem_singleton.mp hr']; rfl) (by decide)
  simp only [List.singleton_append] at h
  rw [h]
  rfl

/-- C3: a batch of valid records builds exactly one `City` per record, in
input order: the city list is the input mapped through `cityOfValid`, which
reads each field value off the record and coerces `lat` and `lon` to float;
in particular the counts agree. -/
theorem valid_batch_builds_all_cities (l : List RawRecord)
    (h : ∀ r ∈ l, recordOK r = true) :
    initIterator l none false =
      .ok { cities := l.map cityOfValid, min_population := 0, index := 0 } ∧
    (l.map cityOfValid).length = l.length := by
  refine ⟨?_, l.length_map cityOfValid⟩
  simp [initIterator, validateData_ok_of_all l h, createCities_eq_map l h]

theorem valid_batch_builds_all_cities_witness :
    initIterator [goodRec] none false =
      .ok { cities := [cityOfValid goodRec], min_population := 0, index := 0 } := by
  have h := (valid_batch_builds_all_cities [goodRec] (by decide)).1
  rw [h]
  rfl

/-- C4: on a non-empty city sequence, requesting a sort by a name outside
the `City` entity shape fails with the sort-configuration `ValueError`
("ConfigurationError" in the spec taxonomy), and construction from any
non-empty valid batch with such a sort field fails the same way, so no
iterator state is constructed. -/
theorem sort_unknown_field_configuration_error (cities : List City)
    (l : List RawRecord) (p : String) (rev : Bool) (hne : cities ≠ [])
    (hp : cityFields.contains p = false) :
    sortCities cities p rev = .error (.valueError (sortErrMessage p)) ∧
    ((∀ r ∈ l, recordOK r = true) → l ≠ [] →
      initIterator l (some p) rev = .error (.valueError (sortErrMessage p))) := by
  have hp' : p ∉ cityFields := by simpa using hp
  constructor
  · cases cities with
    | nil => exact absurd rfl hne
    | cons c rest => simp [sortCities, hp']
  · intro hl hlne
    have hsort : sortCities (l.map cityOfValid) p rev =
        .error (.valueError (sortErrMessage p)) := by
      cases hmap : l.map cityOfValid with
      | nil =>
        cases l with
        | nil => exact absurd rfl hlne
        | cons q qs => simp at hmap
      | cons c rest => simp [sortCities, hp']
    simp [initIterator, validateData_ok_of_all l hl, createCities_eq_map l hl, hsort]

theorem sort_unknown_field_configuration_error_witness :
    sortCities [cityA] "elevation" false =
      .error (.valueError (sortErrMessage "elevation")) ∧
    initIterator [goodRec] (some "elevation") false =
      .error (.valueError (sortErrMessage "elevation")) := by
  have h := sort_unknown_field_configuration_error [cityA] [goodRec] "elevation" false
    (List.cons_ne_nil cityA []) (by decide)
  exact ⟨h.1, h.2 (by decide) (List.cons_ne_nil goodRec [])⟩

/-- C5 counterexample: the claim predicts a `ValidationError` for every
uncoercible `lat`/`lon` value regardless of its type, but for a `None`
coordinate the code raises `TypeError` (Python `float(None)`), which the
`except (KeyError, ValueError)` clauses of `_create_city` do not catch, so
construction fails with an uncaught `TypeError`, not the validation
`ValueError` (the constructors are distinct). -/
theorem uncoercible_lat_none_raises_type_error :
    initIterator [badLatNoneRec] none false = .error .typeError := rfl

theorem floatOf_typeError_of_nonNumStr (v : PyVal) (h : nonNumStrVal v = true) :
    floatOf v = .error .typeError := by
  cases v <;> simp_all [nonNumStrVal, floatOf]

/-- C5 as amended: for a record passing key validation, an uncoercible `lat`
value — or, when `lat` coerces, an uncoercible `lon` value — makes
construction fail inside `_create_city`, in the two modes of `float`:
a string value that `float` cannot coerce fails with the validation
`ValueError` whose wrapped message names the bad value (the hypothesis
`badFloatString s = true` restricts to strings containing an ASCII character
that can never occur in a float literal, which the real `float` rejects just
as the model's `parseFloat` does); a value of non-string, non-numeric type
(`None`, a list, a dict) makes `float` raise `TypeError`, which the
`except (KeyError, ValueError)` clauses do not catch, so construction fails
with the uncaught `TypeError`.  Records before the offending one build their
cities and the rest of the batch validates. -/
theorem uncoercible_coordinate_errors (pre post : List RawRecord)
    (r : RawRecord) (cfields : List (String × PyVal)) (latv lonv : PyVal)
    (hpre : ∀ r' ∈ pre, recordOK r' = true)
    (hpost : ∀ r' ∈ post, validateRecord r' = .ok ())
    (hname : (List.lookup "name" r).isSome = true)
    (hdistrict : (List.lookup "district" r).isSome = true)
    (hpop : (List.lookup "population" r).isSome = true)
    (hsubj : (List.lookup "subject" r).isSome = true)
    (hv : List.lookup "coords" r = some (.pyDict cfields))
    (hlatv : List.lookup "lat" cfields = some latv)
    (hlonv : List.lookup "lon" cfields = some lonv) :
    (∀ s, latv = .pyStr s → parseFloat s = none → badFloatString s = true →
      initIterator (pre ++ r :: post) none false =
        .error (.valueError ("Error converting data: " ++
          ("could not convert string to float: " ++ s)))) ∧
    (∀ q s, floatOf latv = .ok q → lonv = .pyStr s → parseFloat s = none →
        badFloatString s = true →
      initIterator (pre ++ r :: post) none false =
        .error (.valueError ("Error converting data: " ++
          ("could not convert string to float: " ++ s)))) ∧
    (nonNumStrVal latv = true →
      initIterator (pre ++ r :: post) none false = .error .typeError) ∧
    (∀ q, floatOf latv = .ok q → nonNumStrVal lonv = true →
      initIterator (pre ++ r :: post) none false = .error .typeError) := by
  have hval : validateRecord r = .ok () := by
    simp [validateRecord, requiredFields, coordsFields, hname, hdistrict, hpop,
          hsubj, hv, hlatv, hlonv]
  have hdata : validateData (pre ++ r :: post) = .ok () := by
    apply validateData_ok_of_records
    intro r' hr'
    rcases List.mem_append.mp hr' with h' | h'
    · exact validateRecord_ok_of_recordOK r' (hpre r' h')
    · rcases List.mem_cons.mp h' with h' | h'
      · rw [h']; exact hval
      · exact hpost r' h'
  obtain ⟨nv, hnv⟩ := Option.isSome_iff_exists.mp hname
  have hinit : ∀ e, createCity r = .error e →
      initIterator (pre ++ r :: post) none false = .error e := by
    intro e hce
    have hcs := createCities_error_at pre post r e
      (fun r' hr' => createCity_ok_of_recordOK r' (hpre r' hr')) hce
    simp [initIterator, hdata, hcs]
  refine ⟨?_, ?_, ?_, ?_⟩
  · intro s hs hparse hbad
    subst hs
    refine hinit _ ?_
    simp [createCity, createCityRaw, getKey, getItem, floatOf, hnv, hv, hlatv,
          hparse, bind, Except.bind]
  · intro q s hq hs hparse hbad
    subst hs
    refine hinit _ ?_
    simp only [createCity, createCityRaw, getKey, getItem, hnv, hv, hlatv,
               hlonv, hq, bind, Except.bind]
    simp [floatOf, hparse]
  · intro hlat3
    refine hinit _ ?_
    have hfl := floatOf_typeError_of_nonNumStr latv hlat3
    simp [createCity, createCityRaw, getKey, getItem, hnv, hv, hlatv, hfl,
          bind, Except.bind]
  · intro q hq hlon4
    refine hinit _ ?_
    have hfl := floatOf_typeError_of_nonNumStr lonv hlon4
    simp [createCity, createCityRaw, getKey, getItem, hnv, hv, hlatv, hlonv,
          hq, hfl, bind, Except.bind]

theorem uncoercible_coordinate_errors_witness :
    (initIterator [recBadLatStr] none false =
      .error (.valueError ("Error converting data: " ++
        ("could not convert string to float: " ++ "abc")))) ∧
    (initIterator [recBadLonStr] none false =
      .error (.valueError ("Error converting data: " ++
        ("could not convert string to float: " ++ "xyz")))) ∧
    (initIterator [recLatList] none false = .error .typeError) ∧
    (initIterator [recLonNone] none false = .error .typeError) := by
  have hemp : ∀ r' ∈ ([] : List RawRecord), recordOK r' = true := by
    intro r' hr'; simp at hr'
  have hemp2 : ∀ r' ∈ ([] : List RawRecord), validateRecord r' = .ok () := by
    intro r' hr'; simp at hr'
  have h1 := (uncoercible_coordinate_errors [] [] recBadLatStr
      [("lat", .pyStr "abc"), ("lon", .pyStr "2.0")] (.pyStr "abc") (.pyStr "2.0")
      hemp hemp2 (by decide) (by decide) (by decide) (by decide)
      rfl rfl rfl).1 "abc" rfl (by decide) (by decide)
  have h2 := (uncoercible_coordinate_errors [] [] recBadLonStr
      [("lat", .pyInt 1), ("lon", .pyStr "xyz")] (.pyInt 1) (.pyStr "xyz")
      hemp hemp2 (by decide) (by decide) (by decide) (by decide)
      rfl rfl rfl).2.1 ((1 : ℤ) : ℚ) "xyz" rfl rfl (by decide) (by decide)
  have h3 := (uncoercible_coordinate_errors [] [] recLatList
      [("lat", .pyList []), ("lon", .pyStr "2.0")] (.pyList []) (.pyStr "2.0")
      hemp hemp2 (by decide) (by decide) (by decide) (by decide)
      rfl rfl rfl).2.2.1 (by decide)
  have h4 := (uncoercible_coordinate_errors [] [] recLonNone
      [("lat", .pyInt 1), ("lon", .pyNone)] (.pyInt 1) .pyNone
      hemp hemp2 (by decide) (by decide) (by decide) (by decide)
      rfl rfl rfl).2.2.2 ((1 : ℤ) : ℚ) rfl (by decide)
  exact ⟨by simpa using h1, by simpa using h2, by simpa using h3, by simpa using h4⟩

theorem sortKeyEq_vals (p : String) (a b : City) (h : sortKeyEq p a b = true) :
    numVal (a.getattrVal p) = numVal (b.getattrVal p) ∧
    strVal (a.getattrVal p) = strVal (b.getattrVal p) := by
  unfold sortKeyEq at h
  cases hxv : a.getattrVal p <;> cases hyv : b.getattrVal p <;>
    rw [hxv, hyv] at h <;> simp_all [isNumVal, isStrVal, numVal, strVal]

/-- C7: sorting is stable, also with `reverse=True`: whenever two cities
have equal sort-key values (as Python compares them) and occur in that order
in the input — stated as `[a, b]` being a sublist — they occur in the same
relative order in the sorted output.  This follows from the stability of the
stable sort the model uses for `list.sort`, for both the ascending and the
reversed comparator. -/
theorem sort_stable_on_equal_keys (cities out : List City) (p : String)
    (rev : Bool) (a b : City) (hkey : sortKeyEq p a b = true)
    (hsub : List.Sublist [a, b] cities)
    (hout : sortCities cities p rev = .ok out) :
    List.Sublist [a, b] out := by
  obtain ⟨hnumEq, hstrEq⟩ := sortKeyEq_vals p a b hkey
  cases cities with
  | nil => simp [sortCities] at hout
  | cons c rest =>
    simp only [sortCities] at hout
    by_cases hcp : cityFields.contains p = true
    case neg => rw [if_neg hcp] at hout; cases hout
    case pos =>
      rw [if_pos hcp] at hout
      by_cases hre : rest.isEmpty = true
      case pos =>
        rw [if_pos hre] at hout
        injection hout with hco
        rw [← hco]
        exact hsub
      case neg =>
        rw [if_neg hre] at hout
        by_cases hallnum : ((c :: rest).all fun x => isNumVal (x.getattrVal p)) = true
        case pos =>
          rw [if_pos hallnum] at hout
          injection hout with hms
          rw [← hms]
          cases rev <;> simp only [if_true, if_false, Bool.false_eq_true] <;>
            refine List.pair_sublist_mergeSort ?_ ?_ ?_ hsub
          · intro x y z hxy hyz
            simp only [numKeyLe, decide_eq_true_eq] at hxy hyz ⊢
            exact le_trans hxy hyz
          · intro x y
            simp only [numKeyLe, Bool.or_eq_true, decide_eq_true_eq]
            exact le_total _ _
          · simp [numKeyLe, hnumEq]
          · intro x y z hxy hyz
            simp only [numKeyLe, decide_eq_true_eq] at hxy hyz ⊢
            exact le_trans hyz hxy
          · intro x y
            simp only [numKeyLe, Bool.or_eq_true, decide_eq_true_eq]
            exact le_total _ _
          · simp [numKeyLe, hnumEq]
        case neg =>
          rw [if_neg hallnum] at hout
          by_cases hallstr : ((c :: rest).all fun x => isStrVal (x.getattrVal p)) = true
          case pos =>
            rw [if_pos hallstr] at hout
            injection hout with hms
            rw [← hms]
            cases rev <;> simp only [if_true, if_false, Bool.false_eq_true] <;>
              refine List.pair_sublist_mergeSort ?_ ?_ ?_ hsub
            · intro x y z hxy hyz
              exact lexLe_trans _ _ _ hxy hyz
            · intro x y
              exact lexLe_total _ _
            · simp [strKeyLe, hstrEq, lexLe_refl]
            · intro x y z hxy hyz
              exact lexLe_trans _ _ _ hyz hxy
            · intro x y
              exact lexLe_total _ _
            · simp [strKeyLe, hstrEq, lexLe_refl]
          case neg =>
            rw [if_neg hallstr] at hout
            cases hout

theorem sort_stable_on_equal_keys_witness :
    List.Sublist [cityA, cityE] [cityA, cityE, cityB] := by
  have hout : sortCities [cityB, cityA, cityE] "population" false =
      .ok [cityA, cityE, cityB] := by
    norm_num [sortCities, cityFields, cityA, cityB, cityE, City.getattrVal,
      isNumVal, numKeyLe, numVal, List.mergeSort, List.splitInTwo, List.merge]
  exact sort_stable_on_equal_keys [cityB, cityA, cityE] [cityA, cityE, cityB]
    "population" false cityA cityE (by decide)
    ((List.Sublist.refl [cityA, cityE]).cons cityB) hout

theorem getattrVal_population (c : City) :
    c.getattrVal "population" = c.population := rfl

/-- C8: with pairwise-distinct (numeric) populations, sorting by
`population` ascending and sorting the same batch by `population` with
`reverse=True` produce exactly reversed city sequences, and in particular
exactly reversed City-name orderings. -/
theorem population_sort_reverse_is_reversed (cities s₁ s₂ : List City)
    (hnum : ∀ c ∈ cities, isNumVal c.population = true)
    (hdist : cities.Pairwise fun a b => numVal a.population ≠ numVal b.population)
    (h₁ : sortCities cities "population" false = .ok s₁)
    (h₂ : sortCities cities "population" true = .ok s₂) :
    s₂ = s₁.reverse ∧ s₂.map City.name = (s₁.map City.name).reverse := by
  have main : s₂ = s₁.reverse := by
    cases cities with
    | nil => simp [sortCities] at h₁
    | cons c rest =>
      have hcp : cityFields.contains "population" = true := rfl
      simp only [sortCities] at h₁ h₂
      rw [if_pos hcp] at h₁ h₂
      cases rest with
      | nil =>
        rw [if_pos (show ([] : List City).isEmpty = true from rfl)] at h₁ h₂
        injection h₁ with hc₁
        injection h₂ with hc₂
        rw [← hc₁, ← hc₂]
        rfl
      | cons d ds =>
        rw [if_neg (by simp : ¬(List.isEmpty (d :: ds) = true))] at h₁ h₂
        have hall : ((c :: d :: ds).all fun x =>
            isNumVal (x.getattrVal "population")) = true :=
          List.all_eq_true.mpr fun x hx => by
            rw [getattrVal_population]; exact hnum x hx
        rw [if_pos hall] at h₁ h₂
        injection h₁ with hms₁
        injection h₂ with hms₂
        simp only [Bool.false_eq_true, eq_self_iff_true, ite_true, ite_false]
          at hms₁ hms₂
        have htransA : ∀ (x y z : City), numKeyLe "population" x y = true →
            numKeyLe "population" y z = true → numKeyLe "population" x z = true := by
          intro x y z hxy hyz
          simp only [numKeyLe, decide_eq_true_eq] at hxy hyz ⊢
          exact le_trans hxy hyz
        have htotalA : ∀ (x y : City),
            (numKeyLe "population" x y || numKeyLe "population" y x) = true := by
          intro x y
          simp only [numKeyLe, Bool.or_eq_true, decide_eq_true_eq]
          exact le_total _ _
        have htransD : ∀ (x y z : City), numKeyLe "population" y x = true →
            numKeyLe "population" z y = true → numKeyLe "population" z x = true := by
          intro x y z hxy hyz
          simp only [numKeyLe, decide_eq_true_eq] at hxy hyz ⊢
          exact le_trans hyz hxy
        have htotalD : ∀ (x y : City),
            (numKeyLe "population" y x || numKeyLe "population" x y) = true := by
          intro x y
          simp only [numKeyLe, Bool.or_eq_true, decide_eq_true_eq]
          exact le_total _ _
        have hperm₁ : List.Perm s₁ (c :: d :: ds) := hms₁ ▸ List.mergeSort_perm _ _
        have hperm₂ : List.Perm s₂ (c :: d :: ds) := hms₂ ▸ List.mergeSort_perm _ _
        have hsort₁ : s₁.Pairwise fun x y => numKeyLe "population" x y = true := by
          rw [← hms₁]
          exact List.sorted_mergeSort htransA htotalA _
        have hsort₂ : s₂.Pairwise fun x y => numKeyLe "population" y x = true := by
          rw [← hms₂]
          exact List.sorted_mergeSort htransD htotalD _
        have hd₁ : s₁.Pairwise fun x y =>
            numVal x.population ≠ numVal y.population :=
          (hperm₁.pairwise_iff fun h => Ne.symm h).mpr hdist
        have hd₂ : s₂.Pairwise fun x y =>
            numVal x.population ≠ numVal y.population :=
          (hperm₂.pairwise_iff fun h => Ne.symm h).mpr hdist
        have hstrict₂ : s₂.Pairwise fun x y =>
            numVal y.population < numVal x.population := by
          refine (hsort₂.and hd₂).imp fun {x y} h => ?_
          obtain ⟨hle, hne⟩ := h
          have hle' : numVal y.population ≤ numVal x.population := by
            simpa [numKeyLe, getattrVal_population] using hle
          exact lt_of_le_of_ne hle' (Ne.symm hne)
        have hstrict₁r : s₁.reverse.Pairwise fun x y =>
            numVal y.population < numVal x.population := by
          rw [List.pairwise_reverse]
          refine (hsort₁.and hd₁).imp fun {x y} h => ?_
          obtain ⟨hle, hne⟩ := h
          have hle' : numVal x.population ≤ numVal y.population := by
            simpa [numKeyLe, getattrVal_population] using hle
          exact lt_of_le_of_ne hle' hne
        have hp : List.Perm s₂ s₁.reverse :=
          hperm₂.trans (hperm₁.symm.trans (s₁.reverse_perm).symm)
        haveI : IsAntisymm City fun x y =>
            numVal y.population < numVal x.population :=
          ⟨fun x y h1 h2 => absurd h2 (lt_asymm h1)⟩
        exact List.eq_of_perm_of_sorted hp hstrict₂ hstrict₁r
  exact ⟨main, by rw [main, List.map_reverse]⟩

theorem population_sort_reverse_is_reversed_witness :
    ([cityB, cityA] : List City) = ([cityA, cityB] : List City).reverse ∧
    ([cityB, cityA] : List City).map City.name =
      (([cityA, cityB] : List City).map City.name).reverse := by
  have h₁ : sortCities [cityA, cityB] "population" false = .ok [cityA, cityB] := by
    norm_num [sortCities, cityFields, cityA, cityB, City.getattrVal, isNumVal,
      numKeyLe, numVal, List.mergeSort, List.splitInTwo, List.merge]
  have h₂ : sortCities [cityA, cityB] "population" true = .ok [cityB, cityA] := by
    norm_num [sortCities, cityFields, cityA, cityB, City.getattrVal, isNumVal,
      numKeyLe, numVal, List.mergeSort, List.splitInTwo, List.merge]
  exact population_sort_reverse_is_reversed [cityA, cityB] [cityA, cityB]
    [cityB, cityA] (by decide) (by norm_num [cityA, cityB, numVal]) h₁ h₂

theorem nextFrom_add (m : ℤ) (l : List City) (i k : ℕ) :
    nextFrom m l (i + k) =
      match nextFrom m l k with
      | .error e => .error e
      | .ok none => .ok none
      | .ok (some (c, j)) => .ok (some (c, i + j)) := by
  induction l generalizing k with
  | nil => rfl
  | cons c rest ih =>
    cases hpg : popGe c.population m with
    | error e => simp [nextFrom, hpg]
    | ok b =>
      cases b
      · have hshift := ih (k + 1)
        simp only [nextFrom, hpg]
        rw [show i + k + 1 = i + (k + 1) from by omega]
        rw [hshift]
      · simp only [nextFrom, hpg]
        rw [show i + k + 1 = i + (k + 1) from by omega]

theorem collectFrom_step (m : ℤ) (l : List City) :
    collectFrom m l =
      match nextFrom m l 0 with
      | .error e => .error e
      | .ok none => .ok []
      | .ok (some (c, j)) =>
        match collectFrom m (l.drop j) with
        | .error e => .error e
        | .ok rest => .ok (c :: rest)
  := by
  induction l with
  | nil => rfl
  | cons c rest ih =>
    cases hpg : popGe c.population m with
    | error e => simp [collectFrom, nextFrom, hpg]
    | ok b =>
      cases b
      · have hshift := nextFrom_add m rest 1 0
        simp only [Nat.add_zero] at hshift
        simp only [collectFrom, nextFrom, hpg, hshift, ih]
        cases hnf : nextFrom m rest 0 with
        | error e => rfl
        | ok o =>
          cases o with
          | none => rfl
          | some cj =>
            obtain ⟨c', j⟩ := cj
            simp [Nat.add_comm 1 j, List.drop_succ_cons]
      · simp [collectFrom, nextFrom, hpg]

/-- A `for` loop over the iterator is repeated `__next__` calls: traversing
from the current state equals taking one `nextCity` step and continuing from
the state it returns. -/
theorem traverseState_eq_next_chain (st : IterState) :
    traverseState st =
      match nextCity st with
      | .error e => .error e
      | .ok (none, _) => .ok []
      | .ok (some c, st') =>
        match traverseState st' with
        | .error e => .error e
        | .ok rest => .ok (c :: rest)
  := by
  unfold traverseState nextCity
  have habs := nextFrom_add st.min_population (st.cities.drop st.index) st.index 0
  simp only [Nat.add_zero] at habs
  rw [habs, collectFrom_step st.min_population (st.cities.drop st.index)]
  cases hnf : nextFrom st.min_population (st.cities.drop st.index) 0 with
  | error e => rfl
  | ok o =>
    cases o with
    | none => rfl
    | some cj =>
      obtain ⟨c, j⟩ := cj
      simp [List.drop_drop, Nat.add_comm st.index j]
